import Mathlib

/-!
# Verification of the VPaint `TransformTool` (VectorAnimationComplex)

Shallow embedding of `src/Gui/VectorAnimationComplex/TransformTool.cpp`:
the transform-widget geometry (widget anchor/opposite positions, the rotate
arrow contour), the hover / pick-id protocol, and the
`beginTransform` / `continueTransform` drag protocol.

C++ `double` arithmetic is modelled by `ℝ` (total division: `x / 0 = 0`).
Cells are modelled by natural-number ids; the cell attributes that
`TransformTool.cpp` queries are bundled in a `VAC` structure.
-/

namespace VPaint

/-- 2D point / vector (`Eigen::Vector2d`). -/
abbrev Vec2 : Type := ℝ × ℝ

/-- `TransformTool::WidgetId` — Modelled from the spec: the enum lives in
`TransformTool.h`, which is not part of the given sources.  The spec (§3)
requires 12 widget variants (4 corner-scale, 4 edge-scale, 4 corner-rotate)
plus a distinguished `None` sentinel, with a contiguous numeric range for
the 12 valid widgets used by the pick-id scheme. -/
inductive WidgetId : Type
  | none
  | topLeftScale | topRightScale | bottomRightScale | bottomLeftScale
  | topScale | rightScale | bottomScale | leftScale
  | topLeftRotate | topRightRotate | bottomRightRotate | bottomLeftRotate
  deriving DecidableEq, Repr

/-- Numeric value of a widget id: `None = 0`, the 12 widgets occupy the
contiguous range `1..12` (Modelled from the spec: contiguous, offsettable). -/
def WidgetId.toInt : WidgetId → ℤ
  | .none => 0
  | .topLeftScale => 1
  | .topRightScale => 2
  | .bottomRightScale => 3
  | .bottomLeftScale => 4
  | .topScale => 5
  | .rightScale => 6
  | .bottomScale => 7
  | .leftScale => 8
  | .topLeftRotate => 9
  | .topRightRotate => 10
  | .bottomRightRotate => 11
  | .bottomLeftRotate => 12

/-- `MIN_WIDGET_ID`: numeric value of the first valid widget. -/
def MIN_WIDGET_ID : ℤ := 1

/-- `MAX_WIDGET_ID`: numeric value of the last valid widget. -/
def MAX_WIDGET_ID : ℤ := 12

/-- Inverse of `WidgetId.toInt` on the valid range (the C++
`static_cast<WidgetId>(widgetId)` performed after the range check). -/
def widgetIdOfInt (k : ℤ) : WidgetId :=
  if k = 1 then .topLeftScale
  else if k = 2 then .topRightScale
  else if k = 3 then .bottomRightScale
  else if k = 4 then .bottomLeftScale
  else if k = 5 then .topScale
  else if k = 6 then .rightScale
  else if k = 7 then .bottomScale
  else if k = 8 then .leftScale
  else if k = 9 then .topLeftRotate
  else if k = 10 then .topRightRotate
  else if k = 11 then .bottomRightRotate
  else if k = 12 then .bottomLeftRotate
  else .none

/-- A non-empty axis-aligned rectangle: the payload of a bounding box.
Modelled from the spec: `BoundingBox.h` is not part of the given sources;
the spec (§3) gives attributes `xMin, xMax, yMin, yMax` and mid accessors. -/
structure Rect : Type where
  xMin : ℝ
  xMax : ℝ
  yMin : ℝ
  yMax : ℝ

noncomputable section RealGeometry

/-- `BoundingBox::xMid`. -/
def Rect.xMid (r : Rect) : ℝ := (r.xMin + r.xMax) / 2

/-- `BoundingBox::yMid`. -/
def Rect.yMid (r : Rect) : ℝ := (r.yMin + r.yMax) / 2

/-- Union of two non-empty boxes: componentwise min/max extents. -/
def Rect.unite (r s : Rect) : Rect :=
  ⟨min r.xMin s.xMin, max r.xMax s.xMax, min r.yMin s.yMin, max r.yMax s.yMax⟩

/-- `BoundingBox` — Modelled from the spec: a default-constructed box is
empty, and uniting with an empty box adopts the other box's extents (§4.1);
a non-empty box unites by expanding extents. -/
def BoundingBox : Type := Option Rect

/-- `BoundingBox::unite`. -/
def BoundingBox.unite : BoundingBox → BoundingBox → BoundingBox
  | Option.none, b => b
  | Option.some r, Option.none => Option.some r
  | Option.some r, Option.some s => Option.some (r.unite s)

theorem Rect.unite_comm (r s : Rect) : r.unite s = s.unite r := by
  simp [Rect.unite, min_comm, max_comm]

theorem Rect.unite_assoc (r s t : Rect) :
    (r.unite s).unite t = r.unite (s.unite t) := by
  simp [Rect.unite, min_assoc, max_assoc]

instance : Std.Commutative BoundingBox.unite :=
  ⟨by
    intro a b
    cases a <;> cases b <;> simp [BoundingBox.unite, Rect.unite_comm]⟩

instance : Std.Associative BoundingBox.unite :=
  ⟨by
    intro a b c
    cases a <;> cases b <;> cases c <;>
      simp [BoundingBox.unite, Rect.unite_assoc]⟩

/-- Extract the extents of a bounding box (an empty box reads as the
degenerate all-zero rectangle, matching a value-initialized box). -/
def BoundingBox.toRect : BoundingBox → Rect
  | Option.none => ⟨0, 0, 0, 0⟩
  | Option.some r => r

/-- `widgetPos_` (TransformTool.cpp): anchor point of each widget on the
bounding box. -/
def widgetPos_ (id : WidgetId) (bb : Rect) : Vec2 :=
  match id with
  | .topLeftScale => (bb.xMin, bb.yMin)
  | .topRightScale => (bb.xMax, bb.yMin)
  | .bottomRightScale => (bb.xMax, bb.yMax)
  | .bottomLeftScale => (bb.xMin, bb.yMax)
  | .topScale => (bb.xMid, bb.yMin)
  | .rightScale => (bb.xMax, bb.yMid)
  | .bottomScale => (bb.xMid, bb.yMax)
  | .leftScale => (bb.xMin, bb.yMid)
  | .topLeftRotate => (bb.xMin, bb.yMin)
  | .topRightRotate => (bb.xMax, bb.yMin)
  | .bottomRightRotate => (bb.xMax, bb.yMax)
  | .bottomLeftRotate => (bb.xMin, bb.yMax)
  | .none => (0, 0)

/-- `widgetOppositePos_` (TransformTool.cpp): the diagonally or axially
opposite anchor, used as the pivot. -/
def widgetOppositePos_ (id : WidgetId) (bb : Rect) : Vec2 :=
  match id with
  | .topLeftScale => (bb.xMax, bb.yMax)
  | .topRightScale => (bb.xMin, bb.yMax)
  | .bottomRightScale => (bb.xMin, bb.yMin)
  | .bottomLeftScale => (bb.xMax, bb.yMin)
  | .topScale => (bb.xMid, bb.yMax)
  | .rightScale => (bb.xMin, bb.yMid)
  | .bottomScale => (bb.xMid, bb.yMin)
  | .leftScale => (bb.xMax, bb.yMid)
  | .topLeftRotate => (bb.xMax, bb.yMax)
  | .topRightRotate => (bb.xMin, bb.yMax)
  | .bottomRightRotate => (bb.xMin, bb.yMin)
  | .bottomLeftRotate => (bb.xMax, bb.yMin)
  | .none => (0, 0)

/-- 2D affine transform (`Eigen::Affine2d`): linear part
`[[a, b], [c, d]]` plus translation `(tx, ty)`. -/
structure Affine2d : Type where
  a : ℝ
  b : ℝ
  c : ℝ
  d : ℝ
  tx : ℝ
  ty : ℝ

/-- Apply an affine transform to a point. -/
def Affine2d.apply (f : Affine2d) (p : Vec2) : Vec2 :=
  (f.a * p.1 + f.b * p.2 + f.tx, f.c * p.1 + f.d * p.2 + f.ty)

/-- Composition `f * g` (apply `g` first, then `f`), as in Eigen. -/
def Affine2d.comp (f g : Affine2d) : Affine2d :=
  { a := f.a * g.a + f.b * g.c
    b := f.a * g.b + f.b * g.d
    c := f.c * g.a + f.d * g.c
    d := f.c * g.b + f.d * g.d
    tx := f.a * g.tx + f.b * g.ty + f.tx
    ty := f.c * g.tx + f.d * g.ty + f.ty }

/-- `Eigen::Scaling(sx, sy)`. -/
def Affine2d.scaling (sx sy : ℝ) : Affine2d := ⟨sx, 0, 0, sy, 0, 0⟩

/-- `Eigen::Rotation2Dd(θ)`. -/
def Affine2d.rotation (θ : ℝ) : Affine2d :=
  ⟨Real.cos θ, -Real.sin θ, Real.sin θ, Real.cos θ, 0, 0⟩

/-- `Eigen::Translation2d(tx, ty)`. -/
def Affine2d.translation (tx ty : ℝ) : Affine2d := ⟨1, 0, 0, 1, tx, ty⟩

/-- The identity affine transform. -/
def Affine2d.id : Affine2d := ⟨1, 0, 0, 1, 0, 0⟩

/-- `pivot * xf * pivot.inverse()` (TransformTool.cpp line 592): conjugate a
transform by the translation taking the origin to the pivot. -/
def pivotConj (xp yp : ℝ) (xf : Affine2d) : Affine2d :=
  (Affine2d.translation xp yp).comp (xf.comp (Affine2d.translation (-xp) (-yp)))

/-- `std::atan2 (y, x)`, modelled as the argument of the complex number
`x + y·i` (principal value in `(-π, π]`, `atan2 0 0 = 0`). -/
def atan2 (y x : ℝ) : ℝ := Complex.arg ⟨x, y⟩

/-! ## Rotate-widget arrow contour -/

/-- `const double PI = 3.14159` (the code's own constant, not `π`). -/
def cppPI : ℝ := 3.14159

/-- `const double SQRT2 = 1.4142`. -/
def cppSQRT2 : ℝ := 1.4142

/-- `scaleWidgetCornerSize = 8`. -/
def scaleWidgetCornerSize : ℝ := 8

/-- `scaleWidgetEdgeSize = 5`. -/
def scaleWidgetEdgeSize : ℝ := 5

/-- `rotateWidgetSize = scaleWidgetCornerSize`. -/
def rotateWidgetSize : ℝ := scaleWidgetCornerSize

/-- `rotateWidgetAngleRange = PI / 7`. -/
def rotateWidgetAngleRange : ℝ := cppPI / 7

/-- `rotateWidgetCircleCenter = 5`. -/
def rotateWidgetCircleCenter : ℝ := 5

/-- `rotateWidgetCircleRadius = 9`. -/
def rotateWidgetCircleRadius : ℝ := 9

/-- `rotateWidgetBodyHalfWidth = 0.7`. -/
def rotateWidgetBodyHalfWidth : ℝ := 0.7

/-- `rotateWidgetHeadHalfWidth = SQRT2`. -/
def rotateWidgetHeadHalfWidth : ℝ := cppSQRT2

/-- `rotateWidgetNumSamples = 20`: the fixed sample count `n`. -/
def rotateWidgetNumSamples : ℕ := 20

/-- `rotateWidgetMidAngle_` (TransformTool.cpp). -/
def rotateWidgetMidAngle_ (id : WidgetId) : ℝ :=
  match id with
  | .topLeftRotate => 5 * cppPI / 4
  | .topRightRotate => 7 * cppPI / 4
  | .bottomRightRotate => 1 * cppPI / 4
  | .bottomLeftRotate => 3 * cppPI / 4
  | _ => 0

/-- `u_(θ)`: unit vector of angle `θ`. -/
def u_ (θ : ℝ) : Vec2 := (Real.cos θ, Real.sin θ)

/-- `p_(c, r, u)`: point at distance `r` from `c` along `u`. -/
def p_ (c : Vec2) (r : ℝ) (u : Vec2) : Vec2 := (c.1 + r * u.1, c.2 + r * u.2)

/-- On-screen size scaled by 1/zoom: `size = rotateWidgetSize / zoom`. -/
def arrowScaledSize (zoom : ℝ) : ℝ := rotateWidgetSize / zoom

/-- Center of the rotate-arrow circle:
`p_(corner, -rotateWidgetCircleCenter*size, midAngle)`. -/
def arrowCenter (id : WidgetId) (bb : Rect) (zoom : ℝ) : Vec2 :=
  p_ (widgetPos_ id bb) (-(rotateWidgetCircleCenter * arrowScaledSize zoom))
    (u_ (rotateWidgetMidAngle_ id))

/-- `rCenterline = rotateWidgetCircleRadius*size`. -/
def rCenterline (zoom : ℝ) : ℝ := rotateWidgetCircleRadius * arrowScaledSize zoom

/-- `rMaxHead = rCenterline + rotateWidgetHeadHalfWidth*size`. -/
def rMaxHead (zoom : ℝ) : ℝ :=
  rCenterline zoom + rotateWidgetHeadHalfWidth * arrowScaledSize zoom

/-- `rMinHead = rCenterline - rotateWidgetHeadHalfWidth*size`. -/
def rMinHead (zoom : ℝ) : ℝ :=
  rCenterline zoom - rotateWidgetHeadHalfWidth * arrowScaledSize zoom

/-- `rMaxBody = rCenterline + rotateWidgetBodyHalfWidth*size`. -/
def rMaxBody (zoom : ℝ) : ℝ :=
  rCenterline zoom + rotateWidgetBodyHalfWidth * arrowScaledSize zoom

/-- `rMinBody = rCenterline - rotateWidgetBodyHalfWidth*size`. -/
def rMinBody (zoom : ℝ) : ℝ :=
  rCenterline zoom - rotateWidgetBodyHalfWidth * arrowScaledSize zoom

/-- `startAngle = midAngle - 0.5 * rotateWidgetAngleRange`. -/
def arrowStartAngle (id : WidgetId) : ℝ :=
  rotateWidgetMidAngle_ id - 0.5 * rotateWidgetAngleRange

/-- `endAngle = midAngle + 0.5 * rotateWidgetAngleRange`. -/
def arrowEndAngle (id : WidgetId) : ℝ :=
  rotateWidgetMidAngle_ id + 0.5 * rotateWidgetAngleRange

/-- `deltaAngle = rotateWidgetAngleRange / (n-1)`. -/
def arrowDeltaAngle : ℝ :=
  rotateWidgetAngleRange / ((rotateWidgetNumSamples : ℝ) - 1)

/-- Body sample point on the inner side:
`p_(center, rMinBody, u_(startAngle + i * deltaAngle))` (written to index
`3 + i` by the body loop). -/
def arrowInnerPoint (id : WidgetId) (bb : Rect) (zoom : ℝ) (i : ℕ) : Vec2 :=
  p_ (arrowCenter id bb zoom) (rMinBody zoom)
    (u_ (arrowStartAngle id + (i : ℝ) * arrowDeltaAngle))

/-- Body sample point on the outer side:
`p_(center, rMaxBody, u_(startAngle + i * deltaAngle))` (written to index
`2n + 5 - i` by the body loop). -/
def arrowOuterPoint (id : WidgetId) (bb : Rect) (zoom : ℝ) (i : ℕ) : Vec2 :=
  p_ (arrowCenter id bb zoom) (rMaxBody zoom)
    (u_ (arrowStartAngle id + (i : ℝ) * arrowDeltaAngle))

/-- The body-filling loop of `computeArrow_`: iterations `0 .. k-1`, each
writing the inner point to index `3 + i` (ascending `minBodyIndex`) and the
outer point to index `2n + 5 - i` (descending `maxBodyIndex`). -/
def fillArrowBody (inner outer : ℕ → Vec2) : ℕ → List Vec2 → List Vec2
  | 0, res => res
  | k + 1, res =>
    ((fillArrowBody inner outer k res).set (3 + k) (inner k)).set
      (2 * rotateWidgetNumSamples + 5 - k) (outer k)

/-- `computeArrow_` (TransformTool.cpp): contour of the double-headed
rotate arrow, `2n + 6` points: the vector is allocated with `2n + 6`
default entries, the two heads are written at indices `0..2` and
`n+3..n+5`, and the body loop fills the remaining `2n` entries. -/
def computeArrow_ (id : WidgetId) (bb : Rect) (zoom : ℝ) : List Vec2 :=
  let n := rotateWidgetNumSamples
  let size := arrowScaledSize zoom
  let center := arrowCenter id bb zoom
  let res : List Vec2 := List.replicate (2 * n + 6) ((0 : ℝ), (0 : ℝ))
  -- First arrow head
  let uStart := u_ (arrowStartAngle id)
  let vStart : Vec2 := (-uStart.2, uStart.1)
  let res := res.set 0 (p_ center (rMaxHead zoom) uStart)
  let res := res.set 1
    ((p_ center (rCenterline zoom) uStart).1 - rotateWidgetHeadHalfWidth * size * vStart.1,
     (p_ center (rCenterline zoom) uStart).2 - rotateWidgetHeadHalfWidth * size * vStart.2)
  let res := res.set 2 (p_ center (rMinHead zoom) uStart)
  -- Second arrow head
  let uEnd := u_ (arrowEndAngle id)
  let vEnd : Vec2 := (-uEnd.2, uEnd.1)
  let res := res.set (n + 3) (p_ center (rMinHead zoom) uEnd)
  let res := res.set (n + 4)
    ((p_ center (rCenterline zoom) uEnd).1 + rotateWidgetHeadHalfWidth * size * vEnd.1,
     (p_ center (rCenterline zoom) uEnd).2 + rotateWidgetHeadHalfWidth * size * vEnd.2)
  let res := res.set (n + 5) (p_ center (rMaxHead zoom) uEnd)
  -- Arrow body
  fillArrowBody (arrowInnerPoint id bb zoom) (arrowOuterPoint id bb zoom) n res

/-- Cells are addressed by natural-number ids. -/
abbrev Cell : Type := ℕ

/-- A set of cells (`CellSet`, a `QSet<Cell*>`). -/
abbrev CellSet : Type := Finset Cell

/-- The cell-model queries made by `TransformTool.cpp` — Modelled from the
spec: `Cell.h`, `KeyVertex.h`, `KeyEdge.h`, `VAC.h` and `Algorithms.h` are
not part of the given sources.  The spec (§3, §6) requires: a capability
distinguishing inbetween cells (with an exists-at-time query) from other
cells, a keyframing service `keyframe(cellSubset, time) -> keyCellSet`,
key-vertex / key-edge kinds, a structural boundary ("is a
boundary/incidence dependency of") used by the topological closure, and
`outlineBoundingBox(time)`.  The boundary relation decreases cell
dimension (vertex 0, edge 1, face 2), and a key edge's boundary cells are
its incident key vertices. -/
structure VAC : Type where
  isInbetween : Cell → Bool
  existsAt : Cell → ℝ → Bool
  keyframe : CellSet → ℝ → CellSet
  isKeyVertex : Cell → Bool
  isKeyEdge : Cell → Bool
  boundary : Cell → CellSet
  dim : Cell → ℕ
  bd_dim : ∀ c b, b ∈ boundary c → dim b < dim c
  keyEdge_bd_isKeyVertex : ∀ e v, isKeyEdge e = true → v ∈ boundary e →
    isKeyVertex v = true
  outlineBB : Cell → ℝ → Rect

/-- Fuel-indexed closure of a single cell under the boundary relation:
the cell itself together with the boundaries of its boundaries, down to
the given depth. -/
def cellClosureFuel (V : VAC) : ℕ → Cell → CellSet
  | 0, c => {c}
  | k + 1, c => insert c ((V.boundary c).biUnion (cellClosureFuel V k))

/-- `Algorithms::closure` — Modelled from the spec: the smallest superset
of a cell set that includes all cells incident to (structurally dependent
on) any member (§Glossary, §4.4 step 5).  Since the boundary relation
decreases dimension, depth `dim c` suffices for each member `c`. -/
def closure (V : VAC) (S : CellSet) : CellSet :=
  S.biUnion (fun c => cellClosureFuel V (V.dim c) c)

/-- The state owned by `TransformTool` (TransformTool.h data members, as
initialized and mutated by TransformTool.cpp). -/
structure TransformTool : Type where
  cells_ : CellSet
  idOffset_ : ℤ
  hovered_ : WidgetId
  manualPivot_ : Bool
  draggedVertices_ : CellSet
  draggedEdges_ : CellSet
  x0_ : ℝ
  y0_ : ℝ
  dx_ : ℝ
  dy_ : ℝ
  xPivot_ : ℝ
  yPivot_ : ℝ

/-- `TransformTool::TransformTool()`: cells empty, id offset 0, no hover,
automatic pivot (the baseline doubles are uninitialized in C++; modelled
as 0). -/
def TransformTool.init : TransformTool :=
  { cells_ := ∅, idOffset_ := 0, hovered_ := .none, manualPivot_ := false
    draggedVertices_ := ∅, draggedEdges_ := ∅
    x0_ := 0, y0_ := 0, dx_ := 0, dy_ := 0, xPivot_ := 0, yPivot_ := 0 }

/-- `TransformTool::setCells`. -/
def TransformTool.setCells (tool : TransformTool) (cells : CellSet) :
    TransformTool :=
  { tool with cells_ := cells, manualPivot_ := false }

/-- `TransformTool::setIdOffset`. -/
def TransformTool.setIdOffset (tool : TransformTool) (idOffset : ℤ) :
    TransformTool :=
  { tool with idOffset_ := idOffset }

/-- `TransformTool::hovered`. -/
def TransformTool.hovered (tool : TransformTool) : WidgetId := tool.hovered_

/-- `TransformTool::glPickColor_`: the pick id reported for a widget is
`idOffset_ + id - MIN_WIDGET_ID`. -/
def TransformTool.glPickColor_ (tool : TransformTool) (id : WidgetId) : ℤ :=
  tool.idOffset_ + id.toInt - MIN_WIDGET_ID

/-- `TransformTool::setNoHoveredObject`. -/
def TransformTool.setNoHoveredObject (tool : TransformTool) : TransformTool :=
  { tool with hovered_ := .none }

/-- `TransformTool::setHoveredObject`. -/
def TransformTool.setHoveredObject (tool : TransformTool) (id : ℤ) :
    TransformTool :=
  let widgetId : ℤ := id - tool.idOffset_ + MIN_WIDGET_ID
  if MIN_WIDGET_ID ≤ widgetId ∧ widgetId ≤ MAX_WIDGET_ID then
    { tool with hovered_ := widgetIdOfInt widgetId }
  else
    tool.setNoHoveredObject

/-- The inbetween cells of `cells` that exist at `time` (collected into
`cellsToKeyframe` by the partition loop of `beginTransform`). -/
def cellsToKeyframe (V : VAC) (cells : CellSet) (time : ℝ) : CellSet :=
  cells.filter (fun c => V.isInbetween c = true ∧ V.existsAt c time = true)

/-- The remaining cells (collected into `cellsNotToKeyframe`): non-inbetween
cells, and inbetween cells that do not exist at `time`. -/
def cellsNotToKeyframe (V : VAC) (cells : CellSet) (time : ℝ) : CellSet :=
  cells.filter (fun c => ¬(V.isInbetween c = true ∧ V.existsAt c time = true))

/-- `cellsToTransform` as computed by `beginTransform`: the untouched cells
together with the keyframed cells, expanded to their topological closure. -/
def cellsToTransform (V : VAC) (cells : CellSet) (time : ℝ) : CellSet :=
  closure V (cellsNotToKeyframe V cells time ∪ V.keyframe (cellsToKeyframe V cells time) time)

/-- The outline bounding box of a cell set at a time: union of the cells'
outline bounding boxes, starting from the empty box (the `obb` loops in
`draw` and `beginTransform`). -/
def outlineBBoxOf (V : VAC) (cells : CellSet) (time : ℝ) : BoundingBox :=
  cells.fold BoundingBox.unite Option.none
    (fun c => Option.some (V.outlineBB c time))

/-- `TransformTool::beginTransform`.  Clears the dragged caches, aborts on
the trivial guard, otherwise partitions and keyframes the cells, caches the
key vertices and edges of the topological closure, and records the affine
baseline (press position, drift to the widget anchor on the outline
bounding box, and the pivot at the opposite widget position). -/
def TransformTool.beginTransform (tool : TransformTool) (V : VAC)
    (cells : CellSet) (x0 y0 time : ℝ) : TransformTool :=
  -- Clear cached values
  let tool := { tool with draggedVertices_ := ∅, draggedEdges_ := ∅ }
  -- Return in trivial cases
  if tool.hovered = .none ∨ cells = ∅ then tool
  else
    -- Keyframe inbetween cells, determine which cells to transform
    let toTransform := cellsToTransform V cells time
    -- Cache key vertices and edges
    let draggedVertices := toTransform.filter (fun c => V.isKeyVertex c = true)
    let draggedEdges := toTransform.filter (fun c => V.isKeyEdge c = true)
    -- Compute outline bounding box at current time
    let obb := (outlineBBoxOf V cells time).toRect
    -- Cache start values to determine affine transformation
    let obbWidgetPos := widgetPos_ tool.hovered obb
    let obbOppositeWidgetPos := widgetOppositePos_ tool.hovered obb
    { tool with
      draggedVertices_ := draggedVertices
      draggedEdges_ := draggedEdges
      x0_ := x0
      y0_ := y0
      dx_ := x0 - obbWidgetPos.1
      dy_ := y0 - obbWidgetPos.2
      xPivot_ := obbOppositeWidgetPos.1
      yPivot_ := obbOppositeWidgetPos.2 }

/-- The affine transform selected by the `if`/`else if` chain of
`continueTransform` (before conjugation by the pivot translation):
`Option.none` when no branch applies (`hovered() == None` never reaches the
chain, and the final `else` returns without transforming). -/
def TransformTool.continueXf (tool : TransformTool) (x y : ℝ) :
    Option Affine2d :=
  match tool.hovered with
  | .topLeftScale | .topRightScale | .bottomRightScale | .bottomLeftScale =>
    Option.some (Affine2d.scaling
      ((x - tool.dx_ - tool.xPivot_) / (tool.x0_ - tool.dx_ - tool.xPivot_))
      ((y - tool.dy_ - tool.yPivot_) / (tool.y0_ - tool.dy_ - tool.yPivot_)))
  | .topScale | .bottomScale =>
    Option.some (Affine2d.scaling 1
      ((y - tool.dy_ - tool.yPivot_) / (tool.y0_ - tool.dy_ - tool.yPivot_)))
  | .rightScale | .leftScale =>
    Option.some (Affine2d.scaling
      ((x - tool.dx_ - tool.xPivot_) / (tool.x0_ - tool.dx_ - tool.xPivot_))
      1)
  | .topLeftRotate | .topRightRotate | .bottomRightRotate | .bottomLeftRotate =>
    Option.some (Affine2d.rotation
      (atan2 (y - tool.yPivot_) (x - tool.xPivot_) -
       atan2 (tool.y0_ - tool.yPivot_) (tool.x0_ - tool.xPivot_)))
  | .none => Option.none

/-- The transform actually applied by `continueTransform`: the selected
transform made relative to the pivot (`pivot * xf * pivot.inverse()`). -/
def TransformTool.continueTransformXf (tool : TransformTool) (x y : ℝ) :
    Option Affine2d :=
  (tool.continueXf x y).map (pivotConj tool.xPivot_ tool.yPivot_)

/-- One outbound geometry call made by `continueTransform`. -/
inductive GeoCall : Type
  | performEdge (e : Cell) (xf : Affine2d)
  | performVertex (v : Cell) (xf : Affine2d)
  | correctVertex (v : Cell)

/-- `TransformTool::continueTransform`, as the sequence of outbound
geometry calls it performs: nothing on the trivial guard or the defensive
fallback; otherwise `performAffineTransform` on every cached edge, then on
every cached vertex, then `correctEdgesGeometry` on every cached vertex
(the unordered `QSet` iteration is rendered in increasing cell-id order). -/
def TransformTool.continueTransform (tool : TransformTool) (cells : CellSet)
    (x y : ℝ) : List GeoCall :=
  if tool.hovered = .none ∨ cells = ∅ then []
  else
    match tool.continueTransformXf x y with
    | Option.none => []
    | Option.some xf =>
      ((tool.draggedEdges_.sort (· ≤ ·)).map (fun e => GeoCall.performEdge e xf))
      ++ ((tool.draggedVertices_.sort (· ≤ ·)).map (fun v => GeoCall.performVertex v xf))
      ++ ((tool.draggedVertices_.sort (· ≤ ·)).map (fun v => GeoCall.correctVertex v))

/-- `TransformTool::endTransform`: nothing to do. -/
def TransformTool.endTransform (tool : TransformTool) (_cells : CellSet) :
    TransformTool :=
  tool

/-- Does a geometry call perform an affine transform on an edge? -/
def GeoCall.isPerformEdge : GeoCall → Prop
  | .performEdge _ _ => True
  | _ => False

/-- Does a geometry call perform an affine transform on a vertex? -/
def GeoCall.isPerformVertex : GeoCall → Prop
  | .performVertex _ _ => True
  | _ => False

/-- Is a geometry call a `correctEdgesGeometry` pass on a vertex? -/
def GeoCall.isCorrect : GeoCall → Prop
  | .correctVertex _ => True
  | _ => False

/-- A tiny concrete VAC used to exercise the theorems: cell 0 is a key
vertex, cell 1 is a key edge whose boundary is `{0}`, there are no
inbetween cells, and every cell's outline bounding box is
`[0,10] × [0,10]`. -/
def sampleVAC : VAC where
  isInbetween := fun _ => false
  existsAt := fun _ _ => false
  keyframe := fun _ _ => ∅
  isKeyVertex := fun c => c == 0
  isKeyEdge := fun c => c == 1
  boundary := fun c => if c = 1 then {0} else ∅
  dim := fun c => if c = 1 then 1 else 0
  bd_dim := by
    intro c b hb
    by_cases hc : c = 1
    · subst hc
      simp at hb
      subst hb
      norm_num
    · simp [hc] at hb
  keyEdge_bd_isKeyVertex := by
    intro e v he hv
    by_cases hc : e = 1
    · subst hc
      simp at hv
      subst hv
      rfl
    · simp [hc] at hv
  outlineBB := fun _ _ => ⟨0, 10, 0, 10⟩

/-- A tool state hovering the top-left scale widget (used to exercise the
theorems on concrete inputs). -/
def toolTopLeftScale : TransformTool :=
  { TransformTool.init with hovered_ := WidgetId.topLeftScale }

/-- A tool state hovering the top-left rotate widget. -/
def toolTopLeftRotate : TransformTool :=
  { TransformTool.init with hovered_ := WidgetId.topLeftRotate }

/-- Squared distance between two points (used to separate contour points
lying on different radii of the rotate-arrow circle). -/
def normSqFrom (c p : Vec2) : ℝ := (p.1 - c.1) ^ 2 + (p.2 - c.2) ^ 2

/-! ## Helper lemmas -/

/-- A transform with no translation part, conjugated around the pivot,
fixes the pivot. -/
theorem pivotConj_apply_pivot (xp yp : ℝ) (S : Affine2d)
    (htx : S.tx = 0) (hty : S.ty = 0) :
    (pivotConj xp yp S).apply (xp, yp) = (xp, yp) := by
  simp only [pivotConj, Affine2d.comp, Affine2d.apply, Affine2d.translation]
  rw [htx, hty, Prod.mk.injEq]
  constructor <;> ring

/-- Conjugating the identity by the pivot translation gives the identity. -/
theorem pivotConj_id (xp yp : ℝ) : pivotConj xp yp Affine2d.id = Affine2d.id := by
  simp only [pivotConj, Affine2d.comp, Affine2d.translation, Affine2d.id,
    Affine2d.mk.injEq]
  refine ⟨by ring, by ring, by ring, by ring, by ring, by ring⟩

/-- `Scaling(1, 1)` is the identity. -/
theorem scaling_one_one : Affine2d.scaling 1 1 = Affine2d.id := rfl

/-- `Rotation2Dd(0)` is the identity. -/
theorem rotation_zero : Affine2d.rotation 0 = Affine2d.id := by
  simp [Affine2d.rotation, Affine2d.id]

/-- The transform selected by `continueTransform` is always linear: its
translation part is zero. -/
theorem continueXf_linear (tool : TransformTool) (x y : ℝ) (S : Affine2d)
    (h : tool.continueXf x y = Option.some S) : S.tx = 0 ∧ S.ty = 0 := by
  cases hw : tool.hovered_ <;>
    simp [TransformTool.continueXf, TransformTool.hovered, hw,
      Affine2d.scaling, Affine2d.rotation] at h <;>
    subst h <;> exact ⟨rfl, rfl⟩

/-! ## C2: the pivot is a fixed point of every applied transform -/

/-- C2: for every scale or rotate transform built by `continueTransform`
(any hovered widget, any drag position), the composed transform
`Translate(pivot) ∘ S ∘ Translate(-pivot)` maps the recorded pivot point
`(xPivot_, yPivot_)` to itself. -/
theorem continueTransform_pivot_fixed_point (tool : TransformTool) (x y : ℝ)
    (xf : Affine2d) (h : tool.continueTransformXf x y = Option.some xf) :
    xf.apply (tool.xPivot_, tool.yPivot_) = (tool.xPivot_, tool.yPivot_) := by
  simp only [TransformTool.continueTransformXf, Option.map_eq_some'] at h
  obtain ⟨S, hS, hxf⟩ := h
  obtain ⟨htx, hty⟩ := continueXf_linear tool x y S hS
  subst hxf
  exact pivotConj_apply_pivot _ _ _ htx hty

/-! ## C5: `beginTransform` clears the caches first; aborted calls mutate
nothing else -/

/-- C5: every `beginTransform` call clears the dragged caches
unconditionally (its outcome does not depend on the previous caches), and
when no widget is hovered or the cell set is empty it returns with no
further state mutated. -/
theorem beginTransform_clears_unconditionally_and_abort_preserves
    (V : VAC) (tool : TransformTool) (cells : CellSet) (x0 y0 t : ℝ) :
    ((tool.hovered_ = WidgetId.none ∨ cells = ∅) →
      tool.beginTransform V cells x0 y0 t =
        { tool with draggedVertices_ := ∅, draggedEdges_ := ∅ }) ∧
    (∀ dv de : CellSet,
      TransformTool.beginTransform
        { tool with draggedVertices_ := dv, draggedEdges_ := de } V cells x0 y0 t =
      tool.beginTransform V cells x0 y0 t) := by
  constructor
  · intro h
    simp only [TransformTool.beginTransform]
    rw [if_pos]
    exact h
  · intro dv de
    rfl

/-! ## C8: the scale-ratio division is unguarded -/

/-- C8: the scale-ratio computation has no guard, clamp or rejection
branch: even when a component of `pressPos - drift - pivot` is zero, the
selected transform is still the unguarded quotient formula (real division
totalized by `x / 0 = 0` stands in for the IEEE `inf`/`NaN` the C++
`double` division produces), for each scale widget category. -/
theorem continueTransform_scale_ratio_unguarded (tool : TransformTool) (x y : ℝ)
    (_hdeg : tool.x0_ - tool.dx_ - tool.xPivot_ = 0 ∨
            tool.y0_ - tool.dy_ - tool.yPivot_ = 0) :
    ((tool.hovered_ = WidgetId.topLeftScale ∨
      tool.hovered_ = WidgetId.topRightScale ∨
      tool.hovered_ = WidgetId.bottomRightScale ∨
      tool.hovered_ = WidgetId.bottomLeftScale) →
      tool.continueXf x y = Option.some (Affine2d.scaling
        ((x - tool.dx_ - tool.xPivot_) / (tool.x0_ - tool.dx_ - tool.xPivot_))
        ((y - tool.dy_ - tool.yPivot_) / (tool.y0_ - tool.dy_ - tool.yPivot_)))) ∧
    ((tool.hovered_ = WidgetId.topScale ∨ tool.hovered_ = WidgetId.bottomScale) →
      tool.continueXf x y = Option.some (Affine2d.scaling 1
        ((y - tool.dy_ - tool.yPivot_) / (tool.y0_ - tool.dy_ - tool.yPivot_)))) ∧
    ((tool.hovered_ = WidgetId.rightScale ∨ tool.hovered_ = WidgetId.leftScale) →
      tool.continueXf x y = Option.some (Affine2d.scaling
        ((x - tool.dx_ - tool.xPivot_) / (tool.x0_ - tool.dx_ - tool.xPivot_))
        1)) := by
  refine ⟨?_, ?_, ?_⟩
  · rintro (h | h | h | h) <;>
      simp [TransformTool.continueXf, TransformTool.hovered, h]
  · rintro (h | h) <;>
      simp [TransformTool.continueXf, TransformTool.hovered, h]
  · rintro (h | h) <;>
      simp [TransformTool.continueXf, TransformTool.hovered, h]

/-! ## C10: `continueTransform` reads its cell argument only through
emptiness -/

/-- C10: for identical tool state, `continueTransform` performs the same
outbound calls for any two non-empty cell sets, and every cell it touches
comes from the caches populated by `beginTransform`. -/
theorem continueTransform_cells_only_emptiness (tool : TransformTool)
    (A B : CellSet) (x y : ℝ) (hA : A ≠ ∅) (hB : B ≠ ∅) :
    tool.continueTransform A x y = tool.continueTransform B x y ∧
    (∀ call ∈ tool.continueTransform A x y,
      (∀ e xf, call = GeoCall.performEdge e xf → e ∈ tool.draggedEdges_) ∧
      (∀ v xf, call = GeoCall.performVertex v xf → v ∈ tool.draggedVertices_) ∧
      (∀ v, call = GeoCall.correctVertex v → v ∈ tool.draggedVertices_)) := by
  constructor
  · by_cases hh : tool.hovered = WidgetId.none
    · simp [TransformTool.continueTransform, hh]
    · simp only [TransformTool.continueTransform, hh, false_or, hA, hB, if_neg,
        not_false_iff]
  · intro call hcall
    simp only [TransformTool.continueTransform] at hcall
    split at hcall
    · simp at hcall
    · split at hcall
      · simp at hcall
      · simp only [List.mem_append, List.mem_map] at hcall
        refine ⟨?_, ?_, ?_⟩
        · rintro e xf rfl
          rcases hcall with (⟨e', he', heq⟩ | ⟨v', hv', heq⟩) | ⟨v', hv', heq⟩ <;>
            first
              | (cases heq; exact (Finset.mem_sort (α := ℕ) (· ≤ ·)).mp he')
              | cases heq
        · rintro v xf rfl
          rcases hcall with (⟨e', he', heq⟩ | ⟨v', hv', heq⟩) | ⟨v', hv', heq⟩ <;>
            first
              | (cases heq; exact (Finset.mem_sort (α := ℕ) (· ≤ ·)).mp hv')
              | cases heq
        · rintro v rfl
          rcases hcall with (⟨e', he', heq⟩ | ⟨v', hv', heq⟩) | ⟨v', hv', heq⟩ <;>
            first
              | (cases heq; exact (Finset.mem_sort (α := ℕ) (· ≤ ·)).mp hv')
              | cases heq

/-! ## C6: pick-id / hover protocol -/

/-- On the valid range `[MIN_WIDGET_ID, MAX_WIDGET_ID]`, `widgetIdOfInt`
inverts `WidgetId.toInt`. -/
theorem widgetIdOfInt_toInt (k : ℤ) (h1 : MIN_WIDGET_ID ≤ k)
    (h2 : k ≤ MAX_WIDGET_ID) : (widgetIdOfInt k).toInt = k := by
  simp only [MIN_WIDGET_ID, MAX_WIDGET_ID] at h1 h2
  interval_cases k <;> rfl

/-- `widgetIdOfInt` is a left inverse of `WidgetId.toInt` on valid
widgets. -/
theorem widgetIdOfInt_of_toInt (w : WidgetId) (hw : w ≠ WidgetId.none) :
    widgetIdOfInt w.toInt = w := by
  cases w <;> first | (exact absurd rfl hw) | rfl

/-- A valid widget never maps to numeric value outside
`[MIN_WIDGET_ID, MAX_WIDGET_ID]`, and `None` maps to 0. -/
theorem toInt_mem_range (w : WidgetId) (hw : w ≠ WidgetId.none) :
    MIN_WIDGET_ID ≤ w.toInt ∧ w.toInt ≤ MAX_WIDGET_ID := by
  cases w <;> first | (exact absurd rfl hw) | (exact ⟨by decide, by decide⟩)

/-- C6: `setHoveredObject(pickId)` sets the hover to the widget with
numeric value `pickId - idOffset + MIN_WIDGET_ID` when that value is in
the valid range and clears it to `None` otherwise; the pick-id mapping
`glPickColor_` round-trips for every valid widget; `setNoHoveredObject`
always yields `None`; and repeating a clear or an out-of-range id is
idempotent. -/
theorem setHoveredObject_pickId_protocol (tool : TransformTool) (pickId : ℤ) :
    ((MIN_WIDGET_ID ≤ pickId - tool.idOffset_ + MIN_WIDGET_ID ∧
      pickId - tool.idOffset_ + MIN_WIDGET_ID ≤ MAX_WIDGET_ID) →
      (tool.setHoveredObject pickId).hovered.toInt =
        pickId - tool.idOffset_ + MIN_WIDGET_ID) ∧
    (¬(MIN_WIDGET_ID ≤ pickId - tool.idOffset_ + MIN_WIDGET_ID ∧
       pickId - tool.idOffset_ + MIN_WIDGET_ID ≤ MAX_WIDGET_ID) →
      (tool.setHoveredObject pickId).hovered = WidgetId.none ∧
      ((tool.setHoveredObject pickId).setHoveredObject pickId).hovered =
        WidgetId.none) ∧
    (∀ w : WidgetId, w ≠ WidgetId.none →
      (tool.setHoveredObject (tool.glPickColor_ w)).hovered = w) ∧
    tool.setNoHoveredObject.hovered = WidgetId.none ∧
    tool.setNoHoveredObject.setNoHoveredObject =
      tool.setNoHoveredObject := by
  refine ⟨?_, ?_, ?_, rfl, rfl⟩
  · intro h
    simp only [TransformTool.setHoveredObject, if_pos h, TransformTool.hovered]
    exact widgetIdOfInt_toInt _ h.1 h.2
  · intro h
    have h1 : (tool.setHoveredObject pickId).hovered = WidgetId.none := by
      simp only [TransformTool.setHoveredObject, if_neg h,
        TransformTool.setNoHoveredObject, TransformTool.hovered]
    refine ⟨h1, ?_⟩
    have h2 : (tool.setHoveredObject pickId).idOffset_ = tool.idOffset_ := by
      simp only [TransformTool.setHoveredObject]
      split <;> rfl
    simp only [TransformTool.setHoveredObject, h2, if_neg h,
      TransformTool.setNoHoveredObject, TransformTool.hovered]
  · intro w hw
    have hrange := toInt_mem_range w hw
    have harg : tool.glPickColor_ w - tool.idOffset_ + MIN_WIDGET_ID = w.toInt := by
      simp only [TransformTool.glPickColor_]
      ring
    simp only [TransformTool.setHoveredObject, harg, if_pos hrange,
      TransformTool.hovered]
    exact widgetIdOfInt_of_toInt w hw

/-! ## C4: identity at press -/

/-- At the press position, with non-degenerate denominators, the selected
transform (before pivot conjugation) is the identity for every hovered
widget. -/
theorem continueXf_at_press (tool : TransformTool)
    (hh : tool.hovered_ ≠ WidgetId.none)
    (hdx : tool.x0_ - tool.dx_ - tool.xPivot_ ≠ 0)
    (hdy : tool.y0_ - tool.dy_ - tool.yPivot_ ≠ 0) :
    tool.continueXf tool.x0_ tool.y0_ = Option.some Affine2d.id := by
  cases hw : tool.hovered_ <;>
    simp_all [TransformTool.continueXf, TransformTool.hovered, hw,
      div_self, scaling_one_one, sub_self, rotation_zero]

/-- At the press position, the transform actually applied (after pivot
conjugation) is the identity. -/
theorem continueTransformXf_at_press (tool : TransformTool)
    (hh : tool.hovered_ ≠ WidgetId.none)
    (hdx : tool.x0_ - tool.dx_ - tool.xPivot_ ≠ 0)
    (hdy : tool.y0_ - tool.dy_ - tool.yPivot_ ≠ 0) :
    tool.continueTransformXf tool.x0_ tool.y0_ = Option.some Affine2d.id := by
  simp [TransformTool.continueTransformXf,
    continueXf_at_press tool hh hdx hdy, pivotConj_id]

/-- Characterization of a successful `beginTransform`: the caches hold the
key vertices and key edges of the closed transformable set, and the affine
baseline records the press position, the drift to the widget anchor on the
outline bounding box, and the pivot at the opposite widget position. -/
theorem beginTransform_eq_of_success (V : VAC) (tool : TransformTool)
    (cells : CellSet) (x0 y0 t : ℝ)
    (hh : tool.hovered_ ≠ WidgetId.none) (hc : cells ≠ ∅) :
    tool.beginTransform V cells x0 y0 t =
      { tool with
        draggedVertices_ :=
          (cellsToTransform V cells t).filter (fun c => V.isKeyVertex c = true)
        draggedEdges_ :=
          (cellsToTransform V cells t).filter (fun c => V.isKeyEdge c = true)
        x0_ := x0
        y0_ := y0
        dx_ := x0 -
          (widgetPos_ tool.hovered_ (outlineBBoxOf V cells t).toRect).1
        dy_ := y0 -
          (widgetPos_ tool.hovered_ (outlineBBoxOf V cells t).toRect).2
        xPivot_ :=
          (widgetOppositePos_ tool.hovered_ (outlineBBoxOf V cells t).toRect).1
        yPivot_ :=
          (widgetOppositePos_ tool.hovered_ (outlineBBoxOf V cells t).toRect).2 } := by
  simp only [TransformTool.beginTransform]
  rw [if_neg (by simp [TransformTool.hovered, hh, hc])]
  rfl

/-- C4: immediately after a successful `beginTransform` with press
position `(x0, y0)`, and with non-zero scale denominators, calling
`continueTransform` at `(x0, y0)` computes the identity transform. -/
theorem continueTransform_identity_at_press (V : VAC) (tool : TransformTool)
    (cells : CellSet) (x0 y0 t : ℝ)
    (hh : tool.hovered_ ≠ WidgetId.none) (hc : cells ≠ ∅)
    (hdx : (tool.beginTransform V cells x0 y0 t).x0_ -
           (tool.beginTransform V cells x0 y0 t).dx_ -
           (tool.beginTransform V cells x0 y0 t).xPivot_ ≠ 0)
    (hdy : (tool.beginTransform V cells x0 y0 t).y0_ -
           (tool.beginTransform V cells x0 y0 t).dy_ -
           (tool.beginTransform V cells x0 y0 t).yPivot_ ≠ 0) :
    (tool.beginTransform V cells x0 y0 t).continueTransformXf x0 y0 =
      Option.some Affine2d.id := by
  have hx0 : (tool.beginTransform V cells x0 y0 t).x0_ = x0 := by
    rw [beginTransform_eq_of_success V tool cells x0 y0 t hh hc]
  have hy0 : (tool.beginTransform V cells x0 y0 t).y0_ = y0 := by
    rw [beginTransform_eq_of_success V tool cells x0 y0 t hh hc]
  have hh' : (tool.beginTransform V cells x0 y0 t).hovered_ ≠ WidgetId.none := by
    rw [beginTransform_eq_of_success V tool cells x0 y0 t hh hc]
    exact hh
  have hmain := continueTransformXf_at_press _ hh' hdx hdy
  rwa [hx0, hy0] at hmain

/-! ## C3: branch formulas and the corner-scale scenario -/

/-- C3: `continueTransform` selects the transform by hovered-widget
category — corner-scale widgets give the non-uniform scale with the
stated quotients on both axes, top/bottom edge-scale widgets fix the x
factor at 1, left/right edge-scale widgets fix the y factor at 1, and
corner-rotate widgets give the relative `atan2` angle; in the concrete
scenario (box `[0,0]..[10,10]`, `TopLeftScale` hovered, press `(0,0)`,
drag to `(5,5)`) the scale ratio is `0.5` on both axes. -/
theorem continueTransform_branch_formulas_and_scenario :
    (∀ (tool : TransformTool) (x y : ℝ),
      (tool.hovered_ = WidgetId.topLeftScale ∨
       tool.hovered_ = WidgetId.topRightScale ∨
       tool.hovered_ = WidgetId.bottomRightScale ∨
       tool.hovered_ = WidgetId.bottomLeftScale) →
      tool.continueXf x y = Option.some (Affine2d.scaling
        ((x - tool.dx_ - tool.xPivot_) / (tool.x0_ - tool.dx_ - tool.xPivot_))
        ((y - tool.dy_ - tool.yPivot_) / (tool.y0_ - tool.dy_ - tool.yPivot_)))) ∧
    (∀ (tool : TransformTool) (x y : ℝ),
      (tool.hovered_ = WidgetId.topScale ∨ tool.hovered_ = WidgetId.bottomScale) →
      tool.continueXf x y = Option.some (Affine2d.scaling 1
        ((y - tool.dy_ - tool.yPivot_) / (tool.y0_ - tool.dy_ - tool.yPivot_)))) ∧
    (∀ (tool : TransformTool) (x y : ℝ),
      (tool.hovered_ = WidgetId.rightScale ∨ tool.hovered_ = WidgetId.leftScale) →
      tool.continueXf x y = Option.some (Affine2d.scaling
        ((x - tool.dx_ - tool.xPivot_) / (tool.x0_ - tool.dx_ - tool.xPivot_))
        1)) ∧
    (∀ (tool : TransformTool) (x y : ℝ),
      (tool.hovered_ = WidgetId.topLeftRotate ∨
       tool.hovered_ = WidgetId.topRightRotate ∨
       tool.hovered_ = WidgetId.bottomRightRotate ∨
       tool.hovered_ = WidgetId.bottomLeftRotate) →
      tool.continueXf x y = Option.some (Affine2d.rotation
        (atan2 (y - tool.yPivot_) (x - tool.xPivot_) -
         atan2 (tool.y0_ - tool.yPivot_) (tool.x0_ - tool.xPivot_)))) ∧
    (toolTopLeftScale.beginTransform sampleVAC {0} 0 0 0).continueXf 5 5 =
      Option.some (Affine2d.scaling 0.5 0.5) := by
  refine ⟨?_, ?_, ?_, ?_, ?_⟩
  · rintro tool x y (h | h | h | h) <;>
      simp [TransformTool.continueXf, TransformTool.hovered, h]
  · rintro tool x y (h | h) <;>
      simp [TransformTool.continueXf, TransformTool.hovered, h]
  · rintro tool x y (h | h) <;>
      simp [TransformTool.continueXf, TransformTool.hovered, h]
  · rintro tool x y (h | h | h | h) <;>
      simp [TransformTool.continueXf, TransformTool.hovered, h]
  · rw [beginTransform_eq_of_success sampleVAC toolTopLeftScale {0} 0 0 0
      (by simp [toolTopLeftScale, TransformTool.init]) (by simp)]
    have hbb : (outlineBBoxOf sampleVAC {0} 0).toRect = ⟨0, 10, 0, 10⟩ := by
      simp [outlineBBoxOf, Finset.fold_singleton, BoundingBox.unite,
        BoundingBox.toRect, sampleVAC]
    simp only [toolTopLeftScale, TransformTool.init, hbb]
    simp only [TransformTool.continueXf, TransformTool.hovered, widgetPos_,
      widgetOppositePos_]
    norm_num

/-! ## C1: the cached set is the closure's key vertices and edges, closed
under incidence -/

/-- A cell belongs to its own closure. -/
theorem mem_cellClosureFuel_self (V : VAC) (k : ℕ) (c : Cell) :
    c ∈ cellClosureFuel V k c := by
  cases k <;> simp [cellClosureFuel]

/-- With fuel at least the cell's dimension, the single-cell closure is
closed under the boundary relation. -/
theorem cellClosureFuel_closed (V : VAC) :
    ∀ (k : ℕ) (c : Cell), V.dim c ≤ k →
      ∀ x ∈ cellClosureFuel V k c, V.boundary x ⊆ cellClosureFuel V k c := by
  intro k
  induction k with
  | zero =>
    intro c hc x hx b hb
    simp only [cellClosureFuel, Finset.mem_singleton] at hx
    subst hx
    exact absurd (V.bd_dim x b hb) (by omega)
  | succ k ih =>
    intro c hc x hx b hb
    simp only [cellClosureFuel, Finset.mem_insert, Finset.mem_biUnion] at hx
    rcases hx with rfl | ⟨y, hy, hxy⟩
    · simp only [cellClosureFuel, Finset.mem_insert, Finset.mem_biUnion]
      exact Or.inr ⟨b, hb, mem_cellClosureFuel_self V k b⟩
    · have hdy : V.dim y ≤ k := by
        have := V.bd_dim c y hy
        omega
      have hsub := ih y hdy x hxy hb
      simp only [cellClosureFuel, Finset.mem_insert, Finset.mem_biUnion]
      exact Or.inr ⟨y, hy, hsub⟩

/-- The input set is contained in its closure. -/
theorem subset_closure (V : VAC) (S : CellSet) : S ⊆ closure V S := by
  intro c hc
  exact Finset.mem_biUnion.mpr ⟨c, hc, mem_cellClosureFuel_self V _ c⟩

/-- The topological closure is closed under the boundary relation: every
incidence dependency of a member is a member. -/
theorem closure_closed (V : VAC) (S : CellSet) :
    ∀ x ∈ closure V S, V.boundary x ⊆ closure V S := by
  intro x hx b hb
  obtain ⟨c, hc, hxc⟩ := Finset.mem_biUnion.mp hx
  have hsub := cellClosureFuel_closed V (V.dim c) c le_rfl x hxc hb
  exact Finset.mem_biUnion.mpr ⟨c, hc, hsub⟩

/-- C1: after a successful `beginTransform`, the cached vertices and edges
are drawn from the topological closure of the union of the keyframed cells
and the untouched cells, and the cached set is closed under incidence: no
cached edge lacks a cached incident vertex. -/
theorem beginTransform_cached_set_closed_under_incidence (V : VAC)
    (tool : TransformTool) (cells : CellSet) (x0 y0 t : ℝ)
    (hh : tool.hovered_ ≠ WidgetId.none) (hc : cells ≠ ∅) :
    ((tool.beginTransform V cells x0 y0 t).draggedVertices_ ∪
     (tool.beginTransform V cells x0 y0 t).draggedEdges_ ⊆
      closure V (cellsNotToKeyframe V cells t ∪
        V.keyframe (cellsToKeyframe V cells t) t)) ∧
    (∀ e ∈ (tool.beginTransform V cells x0 y0 t).draggedEdges_,
      ∀ v ∈ V.boundary e,
        v ∈ (tool.beginTransform V cells x0 y0 t).draggedVertices_) := by
  have hchar := beginTransform_eq_of_success V tool cells x0 y0 t hh hc
  constructor
  · intro c hcmem
    rw [hchar] at hcmem
    simp only [Finset.mem_union, Finset.mem_filter] at hcmem
    rcases hcmem with ⟨hmem, _⟩ | ⟨hmem, _⟩ <;> exact hmem
  · intro e he v hv
    rw [hchar] at he ⊢
    simp only [Finset.mem_filter] at he
    obtain ⟨hmem, hedge⟩ := he
    have hvmem : v ∈ cellsToTransform V cells t :=
      closure_closed V _ e hmem hv
    have hvert : V.isKeyVertex v = true :=
      V.keyEdge_bd_isKeyVertex e v hedge hv
    simp only [Finset.mem_filter]
    exact ⟨hvmem, hvert⟩

/-! ## C9: call order in `continueTransform` -/

/-- Mapped lists are pairwise related when the relation holds between any
two images. -/
theorem pairwise_map_of_all {α β : Type} (l : List α) (f : α → β)
    (R : β → β → Prop) (h : ∀ a b, R (f a) (f b)) :
    List.Pairwise R (l.map f) := by
  induction l with
  | nil => simp
  | cons x xs ih =>
    simp only [List.map_cons, List.pairwise_cons]
    refine ⟨?_, ih⟩
    intro b hb
    obtain ⟨a, _, rfl⟩ := List.mem_map.mp hb
    exact h x a

/-- C9: whenever `continueTransform` applies a transform, it calls
`performAffineTransform` on every cached edge and on every cached vertex
and `correctEdgesGeometry` on every cached vertex, and the call sequence
is phased: no edge transform follows a vertex transform or a correction,
and no correction ever precedes any vertex's transform. -/
theorem continueTransform_call_order (tool : TransformTool) (cells : CellSet)
    (x y : ℝ) (xf : Affine2d) (hc : cells ≠ ∅)
    (hxf : tool.continueTransformXf x y = Option.some xf) :
    (∀ e ∈ tool.draggedEdges_,
      GeoCall.performEdge e xf ∈ tool.continueTransform cells x y) ∧
    (∀ v ∈ tool.draggedVertices_,
      GeoCall.performVertex v xf ∈ tool.continueTransform cells x y ∧
      GeoCall.correctVertex v ∈ tool.continueTransform cells x y) ∧
    List.Pairwise (fun a b =>
      (a.isCorrect → ¬b.isPerformVertex ∧ ¬b.isPerformEdge) ∧
      (a.isPerformVertex → ¬b.isPerformEdge))
      (tool.continueTransform cells x y) := by
  have hh : tool.hovered_ ≠ WidgetId.none := by
    intro h
    simp [TransformTool.continueTransformXf, TransformTool.continueXf,
      TransformTool.hovered, h] at hxf
  have hguard : ¬(tool.hovered = WidgetId.none ∨ cells = ∅) := by
    simp [TransformTool.hovered, hh, hc]
  simp only [TransformTool.continueTransform, if_neg hguard, hxf]
  refine ⟨?_, ?_, ?_⟩
  · intro e he
    simp only [List.mem_append, List.mem_map]
    exact Or.inl (Or.inl ⟨e, (Finset.mem_sort (· ≤ ·)).mpr he, rfl⟩)
  · intro v hv
    constructor <;>
      · simp only [List.mem_append, List.mem_map]
        first
          | exact Or.inl (Or.inr ⟨v, (Finset.mem_sort (· ≤ ·)).mpr hv, rfl⟩)
          | exact Or.inr ⟨v, (Finset.mem_sort (· ≤ ·)).mpr hv, rfl⟩
  · rw [List.pairwise_append]
    refine ⟨?_, ?_, ?_⟩
    · rw [List.pairwise_append]
      refine ⟨?_, ?_, ?_⟩
      · exact pairwise_map_of_all _ _ _ (by
          intro a b
          simp [GeoCall.isCorrect, GeoCall.isPerformVertex])
      · exact pairwise_map_of_all _ _ _ (by
          intro a b
          simp [GeoCall.isCorrect, GeoCall.isPerformVertex, GeoCall.isPerformEdge])
      · intro a ha b hb
        obtain ⟨e, _, rfl⟩ := List.mem_map.mp ha
        obtain ⟨v, _, rfl⟩ := List.mem_map.mp hb
        simp [GeoCall.isCorrect, GeoCall.isPerformVertex, GeoCall.isPerformEdge]
    · exact pairwise_map_of_all _ _ _ (by
        intro a b
        simp [GeoCall.isCorrect, GeoCall.isPerformVertex, GeoCall.isPerformEdge])
    · intro a ha b hb
      obtain ⟨v, _, rfl⟩ := List.mem_map.mp hb
      rcases List.mem_append.mp ha with ha' | ha'
      · obtain ⟨e, _, rfl⟩ := List.mem_map.mp ha'
        simp [GeoCall.isCorrect, GeoCall.isPerformVertex, GeoCall.isPerformEdge]
      · obtain ⟨w, _, rfl⟩ := List.mem_map.mp ha'
        simp [GeoCall.isCorrect, GeoCall.isPerformVertex, GeoCall.isPerformEdge]

/-! ## C7: the rotate-arrow contour -/

/-- The body-filling loop preserves the length of the point vector. -/
theorem fillArrowBody_length (f g : ℕ → Vec2) :
    ∀ (k : ℕ) (res : List Vec2),
      (fillArrowBody f g k res).length = res.length := by
  intro k
  induction k with
  | zero => intro res; rfl
  | succ k ih => intro res; simp [fillArrowBody, List.length_set, ih]

/-- Indices below 3, or between the already-written body prefixes, are
untouched by the body-filling loop. -/
theorem fillArrowBody_getElem?_untouched (f g : ℕ → Vec2) :
    ∀ (k : ℕ), k ≤ rotateWidgetNumSamples →
      ∀ (res : List Vec2) (j : ℕ),
        (j < 3 ∨ (3 + k ≤ j ∧ j < 2 * rotateWidgetNumSamples + 6 - k)) →
        (fillArrowBody f g k res)[j]? = res[j]? := by
  have hn : rotateWidgetNumSamples = 20 := rfl
  intro k
  induction k with
  | zero => intro _ res j _; rfl
  | succ k ih =>
    intro hk res j hj
    simp only [fillArrowBody]
    rw [List.getElem?_set_ne (by omega), List.getElem?_set_ne (by omega)]
    exact ih (by omega) res j (by omega)

/-- After `k` iterations of the body loop, index `3 + i` (for `i < k`)
holds the `i`-th inner body point. -/
theorem fillArrowBody_getElem?_inner (f g : ℕ → Vec2) :
    ∀ (k : ℕ), k ≤ rotateWidgetNumSamples →
      ∀ (res : List Vec2), res.length = 2 * rotateWidgetNumSamples + 6 →
        ∀ (i : ℕ), i < k →
          (fillArrowBody f g k res)[3 + i]? = Option.some (f i) := by
  have hn : rotateWidgetNumSamples = 20 := rfl
  intro k
  induction k with
  | zero => intro _ _ _ i hi; omega
  | succ k ih =>
    intro hk res hres i hi
    simp only [fillArrowBody]
    by_cases hik : i = k
    · subst hik
      rw [List.getElem?_set_ne (by omega)]
      exact List.getElem?_set_self (by
        rw [fillArrowBody_length]
        omega)
    · rw [List.getElem?_set_ne (by omega), List.getElem?_set_ne (by omega)]
      exact ih (by omega) res hres i (by omega)

/-- After `k` iterations of the body loop, index `2n + 5 - i` (for
`i < k`) holds the `i`-th outer body point. -/
theorem fillArrowBody_getElem?_outer (f g : ℕ → Vec2) :
    ∀ (k : ℕ), k ≤ rotateWidgetNumSamples →
      ∀ (res : List Vec2), res.length = 2 * rotateWidgetNumSamples + 6 →
        ∀ (i : ℕ), i < k →
          (fillArrowBody f g k res)[2 * rotateWidgetNumSamples + 5 - i]? =
            Option.some (g i) := by
  have hn : rotateWidgetNumSamples = 20 := rfl
  intro k
  induction k with
  | zero => intro _ _ _ i hi; omega
  | succ k ih =>
    intro hk res hres i hi
    simp only [fillArrowBody]
    by_cases hik : i = k
    · subst hik
      exact List.getElem?_set_self (by
        rw [List.length_set, fillArrowBody_length]
        omega)
    · rw [List.getElem?_set_ne (by omega), List.getElem?_set_ne (by omega)]
      exact ih (by omega) res hres i (by omega)

/-- The arrow contour has exactly `2n + 6` points. -/
theorem computeArrow_length (id : WidgetId) (bb : Rect) (zoom : ℝ) :
    (computeArrow_ id bb zoom).length = 2 * rotateWidgetNumSamples + 6 := by
  simp [computeArrow_, fillArrowBody_length, List.length_set,
    List.length_replicate]

/-- Index 0: tip-side point of the first arrowhead. -/
theorem computeArrow_getElem?_zero (id : WidgetId) (bb : Rect) (zoom : ℝ) :
    (computeArrow_ id bb zoom)[0]? = Option.some
      (p_ (arrowCenter id bb zoom) (rMaxHead zoom) (u_ (arrowStartAngle id))) := by
  have hn : rotateWidgetNumSamples = 20 := rfl
  simp only [computeArrow_]
  rw [fillArrowBody_getElem?_untouched _ _ _ le_rfl _ _ (by omega)]
  simp [List.getElem?_set, List.length_set, List.length_replicate, hn]

/-- Index 1: off-center point of the first arrowhead. -/
theorem computeArrow_getElem?_one (id : WidgetId) (bb : Rect) (zoom : ℝ) :
    (computeArrow_ id bb zoom)[1]? = Option.some
      ((p_ (arrowCenter id bb zoom) (rCenterline zoom) (u_ (arrowStartAngle id))).1 -
          rotateWidgetHeadHalfWidth * arrowScaledSize zoom * (-(u_ (arrowStartAngle id)).2),
       (p_ (arrowCenter id bb zoom) (rCenterline zoom) (u_ (arrowStartAngle id))).2 -
          rotateWidgetHeadHalfWidth * arrowScaledSize zoom * (u_ (arrowStartAngle id)).1) := by
  have hn : rotateWidgetNumSamples = 20 := rfl
  simp only [computeArrow_]
  rw [fillArrowBody_getElem?_untouched _ _ _ le_rfl _ _ (by omega)]
  simp [List.getElem?_set, List.length_set, List.length_replicate, hn]

/-- Index 2: inner point of the first arrowhead. -/
theorem computeArrow_getElem?_two (id : WidgetId) (bb : Rect) (zoom : ℝ) :
    (computeArrow_ id bb zoom)[2]? = Option.some
      (p_ (arrowCenter id bb zoom) (rMinHead zoom) (u_ (arrowStartAngle id))) := by
  have hn : rotateWidgetNumSamples = 20 := rfl
  simp only [computeArrow_]
  rw [fillArrowBody_getElem?_untouched _ _ _ le_rfl _ _ (by omega)]
  simp [List.getElem?_set, List.length_set, List.length_replicate, hn]

/-- Index `n+3`: inner point of the second arrowhead. -/
theorem computeArrow_getElem?_nAddThree (id : WidgetId) (bb : Rect) (zoom : ℝ) :
    (computeArrow_ id bb zoom)[rotateWidgetNumSamples + 3]? = Option.some
      (p_ (arrowCenter id bb zoom) (rMinHead zoom) (u_ (arrowEndAngle id))) := by
  have hn : rotateWidgetNumSamples = 20 := rfl
  simp only [computeArrow_]
  rw [fillArrowBody_getElem?_untouched _ _ _ le_rfl _ _ (by omega)]
  simp [List.getElem?_set, List.length_set, List.length_replicate, hn]

/-- Index `n+4`: off-center point of the second arrowhead. -/
theorem computeArrow_getElem?_nAddFour (id : WidgetId) (bb : Rect) (zoom : ℝ) :
    (computeArrow_ id bb zoom)[rotateWidgetNumSamples + 4]? = Option.some
      ((p_ (arrowCenter id bb zoom) (rCenterline zoom) (u_ (arrowEndAngle id))).1 +
          rotateWidgetHeadHalfWidth * arrowScaledSize zoom * (-(u_ (arrowEndAngle id)).2),
       (p_ (arrowCenter id bb zoom) (rCenterline zoom) (u_ (arrowEndAngle id))).2 +
          rotateWidgetHeadHalfWidth * arrowScaledSize zoom * (u_ (arrowEndAngle id)).1) := by
  have hn : rotateWidgetNumSamples = 20 := rfl
  simp only [computeArrow_]
  rw [fillArrowBody_getElem?_untouched _ _ _ le_rfl _ _ (by omega)]
  simp [List.getElem?_set, List.length_set, List.length_replicate, hn]

/-- Index `n+5`: tip-side point of the second arrowhead. -/
theorem computeArrow_getElem?_nAddFive (id : WidgetId) (bb : Rect) (zoom : ℝ) :
    (computeArrow_ id bb zoom)[rotateWidgetNumSamples + 5]? = Option.some
      (p_ (arrowCenter id bb zoom) (rMaxHead zoom) (u_ (arrowEndAngle id))) := by
  have hn : rotateWidgetNumSamples = 20 := rfl
  simp only [computeArrow_]
  rw [fillArrowBody_getElem?_untouched _ _ _ le_rfl _ _ (by omega)]
  simp [List.getElem?_set, List.length_set, List.length_replicate, hn]

/-- Index `3 + i` (for `i < n`): inner body point at angle
`startAngle + i * deltaAngle`. -/
theorem computeArrow_getElem?_inner (id : WidgetId) (bb : Rect) (zoom : ℝ)
    (i : ℕ) (hi : i < rotateWidgetNumSamples) :
    (computeArrow_ id bb zoom)[3 + i]? =
      Option.some (arrowInnerPoint id bb zoom i) := by
  simp only [computeArrow_]
  exact fillArrowBody_getElem?_inner _ _ _ le_rfl _
    (by simp [List.length_set, List.length_replicate]) i hi

/-- Index `2n + 5 - i` (for `i < n`): outer body point at angle
`startAngle + i * deltaAngle` (the mirrored index). -/
theorem computeArrow_getElem?_outer (id : WidgetId) (bb : Rect) (zoom : ℝ)
    (i : ℕ) (hi : i < rotateWidgetNumSamples) :
    (computeArrow_ id bb zoom)[2 * rotateWidgetNumSamples + 5 - i]? =
      Option.some (arrowOuterPoint id bb zoom i) := by
  simp only [computeArrow_]
  exact fillArrowBody_getElem?_outer _ _ _ le_rfl _
    (by simp [List.length_set, List.length_replicate]) i hi

/-- Distance to the circle center of a point at radius `r` along `u_(θ)`. -/
theorem normSqFrom_p_u (c : Vec2) (r θ : ℝ) :
    normSqFrom c (p_ c r (u_ θ)) = r ^ 2 := by
  simp only [normSqFrom, p_, u_]
  linear_combination r ^ 2 * Real.sin_sq_add_cos_sq θ

/-- Distance to the circle center of a head point offset backwards along
the perpendicular of `u_(θ)` (the index-1 construction). -/
theorem normSqFrom_p_u_perp_sub (c : Vec2) (r h θ : ℝ) :
    normSqFrom c
      ((p_ c r (u_ θ)).1 - h * (-(u_ θ).2), (p_ c r (u_ θ)).2 - h * (u_ θ).1) =
    r ^ 2 + h ^ 2 := by
  simp only [normSqFrom, p_, u_]
  linear_combination (r ^ 2 + h ^ 2) * Real.sin_sq_add_cos_sq θ

/-- Distance to the circle center of a head point offset forwards along
the perpendicular of `u_(θ)` (the index-`n+4` construction). -/
theorem normSqFrom_p_u_perp_add (c : Vec2) (r h θ : ℝ) :
    normSqFrom c
      ((p_ c r (u_ θ)).1 + h * (-(u_ θ).2), (p_ c r (u_ θ)).2 + h * (u_ θ).1) =
    r ^ 2 + h ^ 2 := by
  simp only [normSqFrom, p_, u_]
  linear_combination (r ^ 2 + h ^ 2) * Real.sin_sq_add_cos_sq θ

/-- C7 (amended): for every rotate widget id, bounding box and zoom, the
arrow contour has exactly `2n + 6` points; indices 0, 1, 2 form the first
arrowhead and indices `n+3`, `n+4`, `n+5` (the middle triple, not the last
three points) form the second arrowhead; the remaining `2n` points form
the body as `n` inner/outer pairs, index `3 + i` on the inner radius at
angle `startAngle + i·deltaAngle` and the mirrored index `2n + 5 - i` on
the outer radius at the same angle. -/
theorem computeArrow_contour_layout (id : WidgetId) (bb : Rect) (zoom : ℝ) :
    (computeArrow_ id bb zoom).length = 2 * rotateWidgetNumSamples + 6 ∧
    ((computeArrow_ id bb zoom)[0]? = Option.some
        (p_ (arrowCenter id bb zoom) (rMaxHead zoom) (u_ (arrowStartAngle id))) ∧
     (computeArrow_ id bb zoom)[1]? = Option.some
        ((p_ (arrowCenter id bb zoom) (rCenterline zoom) (u_ (arrowStartAngle id))).1 -
            rotateWidgetHeadHalfWidth * arrowScaledSize zoom * (-(u_ (arrowStartAngle id)).2),
         (p_ (arrowCenter id bb zoom) (rCenterline zoom) (u_ (arrowStartAngle id))).2 -
            rotateWidgetHeadHalfWidth * arrowScaledSize zoom * (u_ (arrowStartAngle id)).1) ∧
     (computeArrow_ id bb zoom)[2]? = Option.some
        (p_ (arrowCenter id bb zoom) (rMinHead zoom) (u_ (arrowStartAngle id)))) ∧
    ((computeArrow_ id bb zoom)[rotateWidgetNumSamples + 3]? = Option.some
        (p_ (arrowCenter id bb zoom) (rMinHead zoom) (u_ (arrowEndAngle id))) ∧
     (computeArrow_ id bb zoom)[rotateWidgetNumSamples + 4]? = Option.some
        ((p_ (arrowCenter id bb zoom) (rCenterline zoom) (u_ (arrowEndAngle id))).1 +
            rotateWidgetHeadHalfWidth * arrowScaledSize zoom * (-(u_ (arrowEndAngle id)).2),
         (p_ (arrowCenter id bb zoom) (rCenterline zoom) (u_ (arrowEndAngle id))).2 +
            rotateWidgetHeadHalfWidth * arrowScaledSize zoom * (u_ (arrowEndAngle id)).1) ∧
     (computeArrow_ id bb zoom)[rotateWidgetNumSamples + 5]? = Option.some
        (p_ (arrowCenter id bb zoom) (rMaxHead zoom) (u_ (arrowEndAngle id)))) ∧
    (∀ i : ℕ, i < rotateWidgetNumSamples →
      (computeArrow_ id bb zoom)[3 + i]? =
        Option.some (arrowInnerPoint id bb zoom i) ∧
      (computeArrow_ id bb zoom)[2 * rotateWidgetNumSamples + 5 - i]? =
        Option.some (arrowOuterPoint id bb zoom i)) :=
  ⟨computeArrow_length id bb zoom,
   ⟨computeArrow_getElem?_zero id bb zoom, computeArrow_getElem?_one id bb zoom,
    computeArrow_getElem?_two id bb zoom⟩,
   ⟨computeArrow_getElem?_nAddThree id bb zoom,
    computeArrow_getElem?_nAddFour id bb zoom,
    computeArrow_getElem?_nAddFive id bb zoom⟩,
   fun i hi => ⟨computeArrow_getElem?_inner id bb zoom i hi,
     computeArrow_getElem?_outer id bb zoom i hi⟩⟩

/-- Counterexample to the original C7 wording "the first 3 and last 3
points form the two head triangles": for the concrete contour of the
top-left rotate widget on the unit box at zoom 1, the point at index
`2n + 5 = 45` (one of the last three points) coincides with no vertex of
either head triangle — the second arrowhead sits at the middle indices
`23, 24, 25`, not at the last three indices. -/
theorem computeArrow_last_three_not_heads :
    (computeArrow_ WidgetId.topLeftRotate ⟨0, 1, 0, 1⟩ 1)[45]? ≠
      (computeArrow_ WidgetId.topLeftRotate ⟨0, 1, 0, 1⟩ 1)[0]? ∧
    (computeArrow_ WidgetId.topLeftRotate ⟨0, 1, 0, 1⟩ 1)[45]? ≠
      (computeArrow_ WidgetId.topLeftRotate ⟨0, 1, 0, 1⟩ 1)[1]? ∧
    (computeArrow_ WidgetId.topLeftRotate ⟨0, 1, 0, 1⟩ 1)[45]? ≠
      (computeArrow_ WidgetId.topLeftRotate ⟨0, 1, 0, 1⟩ 1)[2]? ∧
    (computeArrow_ WidgetId.topLeftRotate ⟨0, 1, 0, 1⟩ 1)[45]? ≠
      (computeArrow_ WidgetId.topLeftRotate ⟨0, 1, 0, 1⟩ 1)[23]? ∧
    (computeArrow_ WidgetId.topLeftRotate ⟨0, 1, 0, 1⟩ 1)[45]? ≠
      (computeArrow_ WidgetId.topLeftRotate ⟨0, 1, 0, 1⟩ 1)[24]? ∧
    (computeArrow_ WidgetId.topLeftRotate ⟨0, 1, 0, 1⟩ 1)[45]? ≠
      (computeArrow_ WidgetId.topLeftRotate ⟨0, 1, 0, 1⟩ 1)[25]? := by
  have h45 : (computeArrow_ WidgetId.topLeftRotate ⟨0, 1, 0, 1⟩ 1)[45]? =
      Option.some (arrowOuterPoint WidgetId.topLeftRotate ⟨0, 1, 0, 1⟩ 1 0) := by
    have h := computeArrow_getElem?_outer WidgetId.topLeftRotate ⟨0, 1, 0, 1⟩ 1 0
      (by norm_num [rotateWidgetNumSamples])
    simpa [rotateWidgetNumSamples] using h
  have h23 := computeArrow_getElem?_nAddThree WidgetId.topLeftRotate ⟨0, 1, 0, 1⟩ 1
  have h24 := computeArrow_getElem?_nAddFour WidgetId.topLeftRotate ⟨0, 1, 0, 1⟩ 1
  have h25 := computeArrow_getElem?_nAddFive WidgetId.topLeftRotate ⟨0, 1, 0, 1⟩ 1
  rw [show rotateWidgetNumSamples + 3 = 23 from rfl] at h23
  rw [show rotateWidgetNumSamples + 4 = 24 from rfl] at h24
  rw [show rotateWidgetNumSamples + 5 = 25 from rfl] at h25
  have h0 := computeArrow_getElem?_zero WidgetId.topLeftRotate ⟨0, 1, 0, 1⟩ 1
  have h1 := computeArrow_getElem?_one WidgetId.topLeftRotate ⟨0, 1, 0, 1⟩ 1
  have h2 := computeArrow_getElem?_two WidgetId.topLeftRotate ⟨0, 1, 0, 1⟩ 1
  have hbody : normSqFrom (arrowCenter WidgetId.topLeftRotate ⟨0, 1, 0, 1⟩ 1)
      (arrowOuterPoint WidgetId.topLeftRotate ⟨0, 1, 0, 1⟩ 1 0) =
      (rMaxBody 1) ^ 2 := by
    simp only [arrowOuterPoint]
    exact normSqFrom_p_u _ _ _
  refine ⟨?_, ?_, ?_, ?_, ?_, ?_⟩
  · rw [h45, h0]
    intro heq
    have hpt := Option.some.inj heq
    have hval := congrArg (normSqFrom (arrowCenter WidgetId.topLeftRotate ⟨0, 1, 0, 1⟩ 1)) hpt
    rw [hbody, normSqFrom_p_u] at hval
    norm_num [rMaxBody, rMaxHead, rCenterline, arrowScaledSize, rotateWidgetSize,
      scaleWidgetCornerSize, rotateWidgetBodyHalfWidth, rotateWidgetHeadHalfWidth,
      rotateWidgetCircleRadius, cppSQRT2] at hval
  · rw [h45, h1]
    intro heq
    have hpt := Option.some.inj heq
    have hval := congrArg (normSqFrom (arrowCenter WidgetId.topLeftRotate ⟨0, 1, 0, 1⟩ 1)) hpt
    rw [hbody, normSqFrom_p_u_perp_sub] at hval
    norm_num [rMaxBody, rCenterline, arrowScaledSize, rotateWidgetSize,
      scaleWidgetCornerSize, rotateWidgetBodyHalfWidth, rotateWidgetHeadHalfWidth,
      rotateWidgetCircleRadius, cppSQRT2] at hval
  · rw [h45, h2]
    intro heq
    have hpt := Option.some.inj heq
    have hval := congrArg (normSqFrom (arrowCenter WidgetId.topLeftRotate ⟨0, 1, 0, 1⟩ 1)) hpt
    rw [hbody, normSqFrom_p_u] at hval
    norm_num [rMaxBody, rMinHead, rCenterline, arrowScaledSize, rotateWidgetSize,
      scaleWidgetCornerSize, rotateWidgetBodyHalfWidth, rotateWidgetHeadHalfWidth,
      rotateWidgetCircleRadius, cppSQRT2] at hval
  · rw [h45, h23]
    intro heq
    have hpt := Option.some.inj heq
    have hval := congrArg (normSqFrom (arrowCenter WidgetId.topLeftRotate ⟨0, 1, 0, 1⟩ 1)) hpt
    rw [hbody, normSqFrom_p_u] at hval
    norm_num [rMaxBody, rMinHead, rCenterline, arrowScaledSize, rotateWidgetSize,
      scaleWidgetCornerSize, rotateWidgetBodyHalfWidth, rotateWidgetHeadHalfWidth,
      rotateWidgetCircleRadius, cppSQRT2] at hval
  · rw [h45, h24]
    intro heq
    have hpt := Option.some.inj heq
    have hval := congrArg (normSqFrom (arrowCenter WidgetId.topLeftRotate ⟨0, 1, 0, 1⟩ 1)) hpt
    rw [hbody, normSqFrom_p_u_perp_add] at hval
    norm_num [rMaxBody, rCenterline, arrowScaledSize, rotateWidgetSize,
      scaleWidgetCornerSize, rotateWidgetBodyHalfWidth, rotateWidgetHeadHalfWidth,
      rotateWidgetCircleRadius, cppSQRT2] at hval
  · rw [h45, h25]
    intro heq
    have hpt := Option.some.inj heq
    have hval := congrArg (normSqFrom (arrowCenter WidgetId.topLeftRotate ⟨0, 1, 0, 1⟩ 1)) hpt
    rw [hbody, normSqFrom_p_u] at hval
    norm_num [rMaxBody, rMaxHead, rCenterline, arrowScaledSize, rotateWidgetSize,
      scaleWidgetCornerSize, rotateWidgetBodyHalfWidth, rotateWidgetHeadHalfWidth,
      rotateWidgetCircleRadius, cppSQRT2] at hval

/-! ## Witnesses: concrete instantiations of the theorems above -/

/-- Witness for C1: transforming the selected edge `1` of `sampleVAC`
caches its boundary vertex `0` as well. -/
theorem beginTransform_cached_set_closed_under_incidence_witness :
    toolTopLeftScale.hovered_ ≠ WidgetId.none ∧ ({1} : CellSet) ≠ ∅ ∧
    (∀ e ∈ (toolTopLeftScale.beginTransform sampleVAC {1} 0 0 0).draggedEdges_,
      ∀ v ∈ sampleVAC.boundary e,
        v ∈ (toolTopLeftScale.beginTransform sampleVAC {1} 0 0 0).draggedVertices_) :=
  ⟨by simp [toolTopLeftScale, TransformTool.init], by simp,
   (beginTransform_cached_set_closed_under_incidence sampleVAC toolTopLeftScale
      {1} 0 0 0 (by simp [toolTopLeftScale, TransformTool.init]) (by simp)).2⟩

/-- Witness for C2: a concrete rotate drag fixes the concrete pivot. -/
theorem continueTransform_pivot_fixed_point_witness :
    toolTopLeftRotate.continueTransformXf 1 1 =
      Option.some (pivotConj 0 0 (Affine2d.rotation (atan2 1 1 - atan2 0 0))) ∧
    (pivotConj 0 0 (Affine2d.rotation (atan2 1 1 - atan2 0 0))).apply
        (toolTopLeftRotate.xPivot_, toolTopLeftRotate.yPivot_) =
      (toolTopLeftRotate.xPivot_, toolTopLeftRotate.yPivot_) := by
  have hxf : toolTopLeftRotate.continueTransformXf 1 1 =
      Option.some (pivotConj 0 0 (Affine2d.rotation (atan2 1 1 - atan2 0 0))) := by
    simp [toolTopLeftRotate, TransformTool.init, TransformTool.continueTransformXf,
      TransformTool.continueXf, TransformTool.hovered]
  exact ⟨hxf, continueTransform_pivot_fixed_point toolTopLeftRotate 1 1 _ hxf⟩

/-- Witness for C3: the corner-scale branch at a concrete hover and drag
position. -/
theorem continueTransform_branch_formulas_and_scenario_witness :
    (toolTopLeftScale.hovered_ = WidgetId.topLeftScale ∨
     toolTopLeftScale.hovered_ = WidgetId.topRightScale ∨
     toolTopLeftScale.hovered_ = WidgetId.bottomRightScale ∨
     toolTopLeftScale.hovered_ = WidgetId.bottomLeftScale) ∧
    toolTopLeftScale.continueXf 2 3 = Option.some (Affine2d.scaling
      ((2 - toolTopLeftScale.dx_ - toolTopLeftScale.xPivot_) /
        (toolTopLeftScale.x0_ - toolTopLeftScale.dx_ - toolTopLeftScale.xPivot_))
      ((3 - toolTopLeftScale.dy_ - toolTopLeftScale.yPivot_) /
        (toolTopLeftScale.y0_ - toolTopLeftScale.dy_ - toolTopLeftScale.yPivot_))) :=
  ⟨Or.inl rfl,
   continueTransform_branch_formulas_and_scenario.1 toolTopLeftScale 2 3 (Or.inl rfl)⟩

/-- Witness for C4: the concrete drag of the C3 scenario applied at its
own press position yields the identity. -/
theorem continueTransform_identity_at_press_witness :
    toolTopLeftScale.hovered_ ≠ WidgetId.none ∧ ({0} : CellSet) ≠ ∅ ∧
    (toolTopLeftScale.beginTransform sampleVAC {0} 0 0 0).x0_ -
      (toolTopLeftScale.beginTransform sampleVAC {0} 0 0 0).dx_ -
      (toolTopLeftScale.beginTransform sampleVAC {0} 0 0 0).xPivot_ ≠ 0 ∧
    (toolTopLeftScale.beginTransform sampleVAC {0} 0 0 0).y0_ -
      (toolTopLeftScale.beginTransform sampleVAC {0} 0 0 0).dy_ -
      (toolTopLeftScale.beginTransform sampleVAC {0} 0 0 0).yPivot_ ≠ 0 ∧
    (toolTopLeftScale.beginTransform sampleVAC {0} 0 0 0).continueTransformXf 0 0 =
      Option.some Affine2d.id := by
  have hh : toolTopLeftScale.hovered_ ≠ WidgetId.none := by
    simp [toolTopLeftScale, TransformTool.init]
  have hc : ({0} : CellSet) ≠ ∅ := by simp
  have hbb : (outlineBBoxOf sampleVAC {0} 0).toRect = ⟨0, 10, 0, 10⟩ := by
    simp [outlineBBoxOf, Finset.fold_singleton, BoundingBox.unite,
      BoundingBox.toRect, sampleVAC]
  have hchar := beginTransform_eq_of_success sampleVAC toolTopLeftScale {0} 0 0 0 hh hc
  have hdx : (toolTopLeftScale.beginTransform sampleVAC {0} 0 0 0).x0_ -
      (toolTopLeftScale.beginTransform sampleVAC {0} 0 0 0).dx_ -
      (toolTopLeftScale.beginTransform sampleVAC {0} 0 0 0).xPivot_ ≠ 0 := by
    rw [hchar]
    simp only [toolTopLeftScale, TransformTool.init, hbb, widgetPos_,
      widgetOppositePos_]
    norm_num
  have hdy : (toolTopLeftScale.beginTransform sampleVAC {0} 0 0 0).y0_ -
      (toolTopLeftScale.beginTransform sampleVAC {0} 0 0 0).dy_ -
      (toolTopLeftScale.beginTransform sampleVAC {0} 0 0 0).yPivot_ ≠ 0 := by
    rw [hchar]
    simp only [toolTopLeftScale, TransformTool.init, hbb, widgetPos_,
      widgetOppositePos_]
    norm_num
  exact ⟨hh, hc, hdx, hdy,
    continueTransform_identity_at_press sampleVAC toolTopLeftScale {0} 0 0 0
      hh hc hdx hdy⟩

/-- Witness for C5: an aborted `beginTransform` (no hover) only clears the
caches. -/
theorem beginTransform_clears_unconditionally_and_abort_preserves_witness :
    (TransformTool.init.hovered_ = WidgetId.none ∨ ({1} : CellSet) = ∅) ∧
    TransformTool.init.beginTransform sampleVAC {1} 0 0 0 =
      { TransformTool.init with draggedVertices_ := ∅, draggedEdges_ := ∅ } :=
  ⟨Or.inl rfl,
   (beginTransform_clears_unconditionally_and_abort_preserves sampleVAC
      TransformTool.init {1} 0 0 0).1 (Or.inl rfl)⟩

/-- Witness for C6: pick id 3 with id offset 0 maps to the widget with
numeric value 4. -/
theorem setHoveredObject_pickId_protocol_witness :
    (MIN_WIDGET_ID ≤ (3 : ℤ) - TransformTool.init.idOffset_ + MIN_WIDGET_ID ∧
      (3 : ℤ) - TransformTool.init.idOffset_ + MIN_WIDGET_ID ≤ MAX_WIDGET_ID) ∧
    (TransformTool.init.setHoveredObject 3).hovered.toInt =
      (3 : ℤ) - TransformTool.init.idOffset_ + MIN_WIDGET_ID :=
  ⟨by decide,
   (setHoveredObject_pickId_protocol TransformTool.init 3).1 (by decide)⟩

/-- Witness for C7: body pair at sample 3 of the concrete contour. -/
theorem computeArrow_contour_layout_witness :
    3 < rotateWidgetNumSamples ∧
    ((computeArrow_ WidgetId.topLeftRotate ⟨0, 1, 0, 1⟩ 1)[3 + 3]? =
      Option.some (arrowInnerPoint WidgetId.topLeftRotate ⟨0, 1, 0, 1⟩ 1 3) ∧
     (computeArrow_ WidgetId.topLeftRotate ⟨0, 1, 0, 1⟩ 1)[2 * rotateWidgetNumSamples + 5 - 3]? =
      Option.some (arrowOuterPoint WidgetId.topLeftRotate ⟨0, 1, 0, 1⟩ 1 3)) :=
  ⟨by norm_num [rotateWidgetNumSamples],
   (computeArrow_contour_layout WidgetId.topLeftRotate ⟨0, 1, 0, 1⟩ 1).2.2.2 3
     (by norm_num [rotateWidgetNumSamples])⟩

/-- Witness for C8: a fully degenerate baseline (press on the pivot) still
yields the unguarded quotient. -/
theorem continueTransform_scale_ratio_unguarded_witness :
    (toolTopLeftScale.x0_ - toolTopLeftScale.dx_ - toolTopLeftScale.xPivot_ = 0 ∨
     toolTopLeftScale.y0_ - toolTopLeftScale.dy_ - toolTopLeftScale.yPivot_ = 0) ∧
    (toolTopLeftScale.hovered_ = WidgetId.topLeftScale ∨
     toolTopLeftScale.hovered_ = WidgetId.topRightScale ∨
     toolTopLeftScale.hovered_ = WidgetId.bottomRightScale ∨
     toolTopLeftScale.hovered_ = WidgetId.bottomLeftScale) ∧
    toolTopLeftScale.continueXf 1 1 = Option.some (Affine2d.scaling
      ((1 - toolTopLeftScale.dx_ - toolTopLeftScale.xPivot_) /
        (toolTopLeftScale.x0_ - toolTopLeftScale.dx_ - toolTopLeftScale.xPivot_))
      ((1 - toolTopLeftScale.dy_ - toolTopLeftScale.yPivot_) /
        (toolTopLeftScale.y0_ - toolTopLeftScale.dy_ - toolTopLeftScale.yPivot_))) := by
  have hdeg : toolTopLeftScale.x0_ - toolTopLeftScale.dx_ - toolTopLeftScale.xPivot_ = 0 ∨
      toolTopLeftScale.y0_ - toolTopLeftScale.dy_ - toolTopLeftScale.yPivot_ = 0 := by
    left
    simp [toolTopLeftScale, TransformTool.init]
  exact ⟨hdeg, Or.inl rfl,
    (continueTransform_scale_ratio_unguarded toolTopLeftScale 1 1 hdeg).1 (Or.inl rfl)⟩

/-- Witness for C9: the phased call order on a concrete rotate drag. -/
theorem continueTransform_call_order_witness :
    ({0} : CellSet) ≠ ∅ ∧
    toolTopLeftRotate.continueTransformXf 1 1 =
      Option.some (pivotConj 0 0 (Affine2d.rotation (atan2 1 1 - atan2 0 0))) ∧
    List.Pairwise (fun a b =>
      (GeoCall.isCorrect a → ¬GeoCall.isPerformVertex b ∧ ¬GeoCall.isPerformEdge b) ∧
      (GeoCall.isPerformVertex a → ¬GeoCall.isPerformEdge b))
      (toolTopLeftRotate.continueTransform {0} 1 1) := by
  have hxf : toolTopLeftRotate.continueTransformXf 1 1 =
      Option.some (pivotConj 0 0 (Affine2d.rotation (atan2 1 1 - atan2 0 0))) := by
    simp [toolTopLeftRotate, TransformTool.init, TransformTool.continueTransformXf,
      TransformTool.continueXf, TransformTool.hovered]
  exact ⟨by simp, hxf,
    (continueTransform_call_order toolTopLeftRotate {0} 1 1 _ (by simp) hxf).2.2⟩

/-- Witness for C10: two different non-empty singleton cell sets produce
the same outbound calls. -/
theorem continueTransform_cells_only_emptiness_witness :
    ({0} : CellSet) ≠ ∅ ∧ ({1} : CellSet) ≠ ∅ ∧
    TransformTool.init.continueTransform {0} 1 1 =
      TransformTool.init.continueTransform {1} 1 1 :=
  ⟨by simp, by simp,
   (continueTransform_cells_only_emptiness TransformTool.init {0} {1} 1 1
      (by simp) (by simp)).1⟩

end RealGeometry

end VPaint
